import Mathlib

/-!
Shallow embedding of the TestRail automation-backlog dashboard (src/app.py).

The embedding covers the status-resolution pipeline: the status group table,
the generic custom-field resolver, the effective-status override rule in
build_dataframe, country parsing, custom-field option parsing from
fetch_plan_data, the get_tests pagination loop of the API client, and the
progress aggregation of main and render_progress_bar.

Python string primitives (strip, lower, split, replace, membership, int)
are modelled over the character list of a string so that every definition
evaluates by kernel reduction. Python dicts are modelled as association
lists with insertion that overwrites in place, and absent values are
modelled with Option or an explicit RawValue.vnone constructor.
-/

namespace Railway

/-- Python str.strip: drops whitespace from both ends of the string. -/
def pyStrip (s : String) : String :=
  ⟨((s.data.dropWhile Char.isWhitespace).reverse.dropWhile Char.isWhitespace).reverse⟩

/-- Python str.lower, restricted to ASCII letters (the only case exercised here). -/
def pyLower (s : String) : String :=
  ⟨s.data.map Char.toLower⟩

/-- Helper for pySplitChar: accumulates the current token in reverse. -/
def splitCharAux (c : Char) : List Char → List Char → List String
  | [], acc => [⟨acc.reverse⟩]
  | x :: xs, acc =>
    if x = c then ⟨acc.reverse⟩ :: splitCharAux c xs [] else splitCharAux c xs (x :: acc)

/-- Python str.split on a one-character separator; the empty string yields one empty token. -/
def pySplitChar (c : Char) (s : String) : List String :=
  splitCharAux c s.data []

/-- Python str.replace for one-character pattern and replacement. -/
def pyReplaceChar (a b : Char) (s : String) : String :=
  ⟨s.data.map (fun x => if x = a then b else x)⟩

/-- Python membership test of a character in a string. -/
def containsChar (c : Char) (s : String) : Bool :=
  s.data.contains c

/-- Digit run to a natural number; none when empty or a non-digit occurs. -/
def digitsToNat? (ds : List Char) : Option Nat :=
  if ds ≠ [] ∧ ds.all Char.isDigit then
    some (ds.foldl (fun n c => n * 10 + (c.toNat - 48)) 0)
  else
    none

/-- Python int() on the inputs arising here: optional sign followed by digits;
none models the ValueError raised on anything else. -/
def pyInt? (s : String) : Option Int :=
  match s.data with
  | '-' :: ds => (digitsToNat? ds).map (fun n => -(n : Int))
  | '+' :: ds => (digitsToNat? ds).map (fun n => (n : Int))
  | ds => (digitsToNat? ds).map (fun n => (n : Int))

/-- An id-to-label mapping (a Python dict with integer keys). -/
abbrev LabelMap := List (Int × String)

/-- Python dict assignment: overwrite the binding in place, else append. -/
def dictInsert (m : LabelMap) (k : Int) (v : String) : LabelMap :=
  if m.any (fun p => p.1 == k) then
    m.map (fun p => if p.1 == k then (p.1, v) else p)
  else
    m ++ [(k, v)]

/-- Python dict.get with a default, where the key may itself be absent (None). -/
def dictGetD (m : LabelMap) (k : Option Int) (d : String) : String :=
  match k with
  | none => d
  | some i => (m.lookup i).getD d

/-- A raw custom-field value as it arrives from the API: absent, an option id,
free text, or a list of option ids. -/
inductive RawValue where
  | vnone : RawValue
  | vint : Int → RawValue
  | vstr : String → RawValue
  | vlist : List Int → RawValue

/-- Python truthiness of the dropdown_map argument: a present, non-empty dict. -/
def mapTruthy : Option LabelMap → Bool
  | none => false
  | some m => !m.isEmpty

/-- resolve_custom_field from src/app.py lines 199-210. -/
def resolve_custom_field (raw : RawValue) (dropdown_map : Option LabelMap) : String :=
  match raw with
  | .vnone => ""
  | .vlist xs =>
    if mapTruthy dropdown_map then
      String.intercalate ", " (xs.map (fun v => ((dropdown_map.getD []).lookup v).getD (toString v)))
    else
      String.intercalate ", " (xs.map (fun v => toString v))
  | .vint n =>
    if mapTruthy dropdown_map then
      ((dropdown_map.getD []).lookup n).getD (toString n)
    else if n == 0 then "" else toString n
  | .vstr s => if s == "" then "" else s

/-- STATUS_GROUP_MAP from src/app.py lines 135-147. -/
def STATUS_GROUP_MAP : List (String × String) :=
  [("Passed", "Passed"),
   ("Passed with Issue", "Passed with Issue"),
   ("Passed with Stub", "Passed with Stub"),
   ("To Do", "To Do"),
   ("To-do", "To Do"),
   ("Blocked", "Blocked"),
   ("Failed (Medium)", "Failed (Medium)"),
   ("Not Applicable", "Not Applicable"),
   ("Failed", "Failed"),
   ("Retest", "To Do"),
   ("Untested", "Untested")]

/-- BASE_STATUS_ORDER from src/app.py lines 179-184: the fixed enumeration of
known statuses used by the presentation layer. -/
def BASE_STATUS_ORDER : List String :=
  ["Passed", "Passed with Issue", "Passed with Stub",
   "To Do", "Blocked", "Failed", "Failed (Medium)",
   "Not automated", "Automation not applicable",
   "Untested", "No-Run", "Not Applicable"]

/-- resolve_status from src/app.py lines 187-188. -/
def resolve_status (status_label : String) : String :=
  (STATUS_GROUP_MAP.lookup status_label).getD status_label

/-- The na_variants set from src/app.py line 257. -/
def na_variants : List String :=
  ["not applicable", "automation not applicable", "n/a"]

/-- The sub-status test of src/app.py lines 258-259: strip, lower, membership. -/
def isNaVariant (s : String) : Bool :=
  na_variants.contains (pyLower (pyStrip s))

/-- The effective-status override chain of src/app.py lines 262-269. -/
def effective_status (device : String) (desktop_na mobile_na : Bool) (status : String) : String :=
  if device == "Desktop" && desktop_na then "Not Applicable"
  else if device == "Mobile" && mobile_na then "Not Applicable"
  else if device == "Both" && desktop_na && mobile_na then "Not Applicable"
  else status

/-- Country parsing of src/app.py line 250: replace commas by newlines, split,
strip each token, keep the non-empty ones. -/
def parseCountries (countries_raw : String) : List String :=
  ((pySplitChar '\n' (pyReplaceChar ',' '\n' countries_raw)).map pyStrip).filter (fun c => c != "")

/-- build_testrail_url from src/app.py lines 213-214, with the module-level
TESTRAIL_URL passed explicitly; a falsy case id (absent or 0) yields the empty string. -/
def build_testrail_url (base_url : String) (case_id : Option Int) : String :=
  match case_id with
  | none => ""
  | some cid => if cid == 0 then "" else base_url ++ "/index.php?/cases/view/" ++ toString cid

/-- One test record as consumed by build_dataframe: the keys it reads from the
raw API dict, with absent keys modelled by none and RawValue.vnone. -/
structure Test where
  case_id : Option Int
  title : String
  status_id : Option Int
  priority_id : Option Int
  type_id : Option Int
  review_note : Option String
  na_reason : RawValue
  countries : RawValue
  device : RawValue
  testim_desktop : RawValue
  testim_mobile : RawValue
  run_name : String
  run_id : Int

/-- The dropdown_maps dict restricted to the five field names build_dataframe
reads; a missing entry is none. -/
structure DropdownMaps where
  na_reason : Option LabelMap
  countries : Option LabelMap
  device : Option LabelMap
  testim_desktop : Option LabelMap
  testim_mobile : Option LabelMap

/-- One row of the dataframe built in src/app.py lines 271-289. -/
structure Row where
  case_id : Option Int
  title : String
  status_raw : String
  status : String
  priority_label : String
  type_label : String
  run_name : String
  device : String
  countries_display : String
  lt : Bool
  lv : Bool
  both_countries : Bool
  na_reason : String
  review_notes : String
  testim_desktop : String
  testim_mobile : String
  link : String

/-- The loop body of build_dataframe, src/app.py lines 222-289. -/
def buildRow (base_url : String) (status_map priority_map type_map : LabelMap)
    (dropdown_maps : DropdownMaps) (t : Test) : Row :=
  let status_label := dictGetD status_map t.status_id "Unknown"
  let status := resolve_status status_label
  let na_reason := resolve_custom_field t.na_reason dropdown_maps.na_reason
  let countries_raw := resolve_custom_field t.countries dropdown_maps.countries
  let device :=
    let d := resolve_custom_field t.device dropdown_maps.device
    if d == "" then "Both" else d
  let testim_desktop := resolve_custom_field t.testim_desktop dropdown_maps.testim_desktop
  let testim_mobile := resolve_custom_field t.testim_mobile dropdown_maps.testim_mobile
  let review_notes :=
    match t.review_note with
    | none => ""
    | some s => if s == "" then "" else s
  let countries := parseCountries countries_raw
  let has_lt := countries.contains "LT"
  let has_lv := countries.contains "LV"
  let has_both := has_lt && has_lv
  let desktop_na := isNaVariant testim_desktop
  let mobile_na := isNaVariant testim_mobile
  let effective := effective_status device desktop_na mobile_na status
  { case_id := t.case_id
    title := t.title
    status_raw := status_label
    status := effective
    priority_label := dictGetD priority_map t.priority_id "—"
    type_label := dictGetD type_map t.type_id "—"
    run_name := t.run_name
    device := device
    countries_display := if countries.isEmpty then "—" else String.intercalate ", " countries
    lt := has_lt
    lv := has_lv
    both_countries := has_both
    na_reason := na_reason
    review_notes := review_notes
    testim_desktop := testim_desktop
    testim_mobile := testim_mobile
    link := build_testrail_url base_url t.case_id }

/-- build_dataframe from src/app.py lines 220-290, as the list of rows; the
module-level TESTRAIL_URL used by build_testrail_url is passed explicitly. -/
def build_dataframe (all_tests : List Test) (status_map priority_map type_map : LabelMap)
    (dropdown_maps : DropdownMaps) (base_url : String) : List Row :=
  all_tests.map (buildRow base_url status_map priority_map type_map dropdown_maps)

/-- Custom-field option parsing from src/app.py lines 104-109, one line at a
time over an accumulated dict; none models the ValueError of int() on a
malformed id, which aborts the whole fetch. -/
def parseOptionLines : List String → LabelMap → Option LabelMap
  | [], acc => some acc
  | line :: rest, acc =>
    let l := pyStrip line
    if containsChar ',' l then
      let parts := pySplitChar ',' l
      let val := pyStrip (parts.headD "")
      let label := pyStrip (String.intercalate "," parts.tail)
      match pyInt? val with
      | none => none
      | some k => parseOptionLines rest (dictInsert acc k label)
    else
      parseOptionLines rest acc

/-- The whole items string parsed into an option map: split on newlines, then
process each line as in src/app.py lines 105-109. -/
def parse_option_items (items_str : String) : Option LabelMap :=
  parseOptionLines (pySplitChar '\n' items_str) []

/-- The shape of one get_tests response: the paginated envelope with its next
link, a bare list, or anything else. -/
inductive ApiResponse (α : Type) where
  | envelope : List α → Option String → ApiResponse α
  | bare : List α → ApiResponse α
  | other : ApiResponse α

/-- The pagination loop of TestRailClient.get_tests, src/app.py lines 50-64.
The server is a function from the requested offset to a response; fuel bounds
the number of iterations the loop may take. Returns the aggregated tests and
the list of offsets requested. -/
def getTestsAux {α : Type} (fetch : Nat → ApiResponse α) :
    Nat → Nat → List α → List Nat → List α × List Nat
  | 0, _, acc, reqs => (acc, reqs)
  | Nat.succ fuel, offset, acc, reqs =>
    match fetch offset with
    | .envelope ts next =>
      match next with
      | none => (acc ++ ts, reqs ++ [offset])
      | some _ => getTestsAux fetch fuel (offset + 250) (acc ++ ts) (reqs ++ [offset])
    | .bare ts => (acc ++ ts, reqs ++ [offset])
    | .other => (acc, reqs ++ [offset])

/-- get_tests: start at offset 0 with an empty accumulator. -/
def get_tests {α : Type} (fetch : Nat → ApiResponse α) (fuel : Nat) : List α × List Nat :=
  getTestsAux fetch fuel 0 [] []

/-- The Status column of the dataframe, as read by the aggregation in main. -/
def statuses_of (rows : List Row) : List String :=
  rows.map Row.status

/-- done_set from src/app.py line 511. -/
def done_set : List String :=
  ["Passed", "Passed with Issue", "Passed with Stub"]

/-- done from src/app.py line 512: the summed counts of the done statuses. -/
def doneCount (sts : List String) : Nat :=
  (done_set.map (fun s => sts.count s)).sum

/-- na from src/app.py line 513. -/
def naCount (sts : List String) : Nat :=
  sts.count "Not Applicable"

/-- actionable from src/app.py line 514. -/
def actionableCount (sts : List String) : Nat :=
  sts.length - naCount sts

/-- The pct computation of render_progress_bar, src/app.py line 323, over the
rationals: done / actionable * 100, and 0 when actionable is 0. -/
def render_progress_pct (done actionable : Nat) : ℚ :=
  if actionable == 0 then 0 else (done : ℚ) / (actionable : ℚ) * 100

/-- A test record with every optional key absent. -/
def baseTest : Test :=
  { case_id := none
    title := ""
    status_id := none
    priority_id := none
    type_id := none
    review_note := none
    na_reason := RawValue.vnone
    countries := RawValue.vnone
    device := RawValue.vnone
    testim_desktop := RawValue.vnone
    testim_mobile := RawValue.vnone
    run_name := ""
    run_id := 0 }

/-- A dropdown_maps dict with no entry for any of the five fields. -/
def noDropdowns : DropdownMaps :=
  { na_reason := none
    countries := none
    device := none
    testim_desktop := none
    testim_mobile := none }

/-! ## Helper lemmas -/

lemma lookup_eq_none_of_not_key {m : List (String × String)} {l : String}
    (h : l ∉ m.map Prod.fst) : m.lookup l = none := by
  induction m with
  | nil => rfl
  | cons q tl ih =>
    rcases q with ⟨k, v⟩
    rw [List.map_cons, List.mem_cons] at h
    push_neg at h
    have hb : (l == k) = false := beq_eq_false_iff_ne.mpr h.1
    simp only [List.lookup, hb]
    exact ih h.2

lemma lookup_of_mem_nodup {m : List (String × String)} {l g : String}
    (hnd : (m.map Prod.fst).Nodup) (h : (l, g) ∈ m) : m.lookup l = some g := by
  induction m with
  | nil => cases h
  | cons q tl ih =>
    rcases q with ⟨k, v⟩
    rw [List.map_cons, List.nodup_cons] at hnd
    rcases List.mem_cons.mp h with he | hm
    · rw [Prod.mk.injEq] at he
      rw [he.1, he.2]
      simp [List.lookup]
    · have hne : l ≠ k := by
        intro he2
        subst he2
        exact hnd.1 (List.mem_map.mpr ⟨(l, g), hm, rfl⟩)
      have hb : (l == k) = false := beq_eq_false_iff_ne.mpr hne
      simp only [List.lookup, hb]
      exact ih hnd.2 hm

/-! ## Claim C3 -/

/-- Claim C3: every key of STATUS_GROUP_MAP resolves to its mapped group, and
every label that is not a key passes through resolve_status unchanged. -/
theorem C3_resolve_status_table :
    (∀ l g : String, (l, g) ∈ STATUS_GROUP_MAP → resolve_status l = g) ∧
    (∀ l : String, l ∉ STATUS_GROUP_MAP.map Prod.fst → resolve_status l = l) := by
  constructor
  · intro l g h
    unfold resolve_status
    rw [lookup_of_mem_nodup (by decide) h]
    rfl
  · intro l h
    unfold resolve_status
    rw [lookup_eq_none_of_not_key h]
    rfl

/-- Claim C3 witness: a mapped label and an unmapped label, evaluated. -/
theorem C3_resolve_status_table_witness :
    resolve_status "Retest" = "To Do" ∧ resolve_status "No-Run" = "No-Run" :=
  ⟨C3_resolve_status_table.1 "Retest" "To Do" (by decide),
   C3_resolve_status_table.2 "No-Run" (by decide)⟩

/-! ## Claim C10 -/

/-- Claim C10: with an absent or empty dropdown map, the integer 0 and the
empty string resolve to the empty string, while every non-zero integer
resolves to its decimal string form. -/
theorem C10_falsy_scalar (m : Option LabelMap) (h : m = none ∨ m = some []) :
    resolve_custom_field (RawValue.vint 0) m = "" ∧
    resolve_custom_field (RawValue.vstr "") m = "" ∧
    (∀ n : Int, n ≠ 0 → resolve_custom_field (RawValue.vint n) m = toString n) := by
  have hm : mapTruthy m = false := by rcases h with h | h <;> subst h <;> rfl
  refine ⟨?_, rfl, ?_⟩
  · simp [resolve_custom_field, hm]
  · intro n hn
    have h0 : (n == 0) = false := beq_eq_false_iff_ne.mpr hn
    simp [resolve_custom_field, hm, h0]

/-- Claim C10 witness: id 0 and id 7 with no dropdown map, evaluated. -/
theorem C10_falsy_scalar_witness :
    resolve_custom_field (RawValue.vint 0) none = "" ∧
    resolve_custom_field (RawValue.vint 7) none = "7" := by
  have h := C10_falsy_scalar none (Or.inl rfl)
  exact ⟨h.1, (h.2.2 7 (by decide)).trans (by rfl)⟩

/-! ## Claim C5 -/

/-- Lookup in an optional dropdown map; none when the map is absent. -/
def optLookup (m : Option LabelMap) (k : Int) : Option String :=
  match m with
  | none => none
  | some d => d.lookup k

/-- The amended contract of resolve_custom_field, stated case by case from the
claim wording: an absent value collapses to the empty string; a list of ids
joins the resolved labels with unresolved ids rendered in string form; a
single id yields its resolved label, or its string form when unresolved,
except that with an absent or empty map the id 0 yields the empty string;
free text passes through unchanged. -/
def resolveCustomFieldSpec (raw : RawValue) (m : Option LabelMap) : String :=
  match raw with
  | .vnone => ""
  | .vlist xs => String.intercalate ", " (xs.map (fun v => (optLookup m v).getD (toString v)))
  | .vint n =>
    match optLookup m n with
    | some label => label
    | none => if (!mapTruthy m) && (n == 0) then "" else toString n
  | .vstr s => s

/-- Claim C5 counterexample: a single option id 0 with no dropdown map resolves
to the empty string rather than to its string form "0". -/
theorem C5_zero_id_counterexample :
    resolve_custom_field (RawValue.vint 0) none = "" ∧
    toString (0 : Int) = "0" ∧ ("" : String) ≠ "0" :=
  ⟨rfl, rfl, by decide⟩

/-- Claim C5 (amended): resolve_custom_field agrees everywhere with its
case-by-case description, amended only in that a single id 0 with an absent
or empty dropdown map resolves to the empty string instead of "0". -/
theorem C5_resolve_custom_field_amended (raw : RawValue) (m : Option LabelMap) :
    resolve_custom_field raw m = resolveCustomFieldSpec raw m := by
  cases raw with
  | vnone => rfl
  | vstr s =>
    by_cases hs : s = ""
    · subst hs; rfl
    · have hb : (s == "") = false := beq_eq_false_iff_ne.mpr hs
      simp [resolve_custom_field, resolveCustomFieldSpec, hb]
  | vint n =>
    cases m with
    | none =>
      by_cases hn : n = 0
      · subst hn; rfl
      · have h0 : (n == 0) = false := beq_eq_false_iff_ne.mpr hn
        simp [resolve_custom_field, resolveCustomFieldSpec, optLookup, mapTruthy, h0]
    | some d =>
      cases d with
      | nil =>
        by_cases hn : n = 0
        · subst hn; rfl
        · have h0 : (n == 0) = false := beq_eq_false_iff_ne.mpr hn
          simp [resolve_custom_field, resolveCustomFieldSpec, optLookup, mapTruthy,
            List.lookup, h0]
      | cons p rest =>
        cases hl : (p :: rest).lookup n with
        | none =>
          simp [resolve_custom_field, resolveCustomFieldSpec, optLookup, mapTruthy, hl]
        | some lab =>
          simp [resolve_custom_field, resolveCustomFieldSpec, optLookup, mapTruthy, hl]
  | vlist xs =>
    cases m with
    | none =>
      simp [resolve_custom_field, resolveCustomFieldSpec, optLookup, mapTruthy]
    | some d =>
      cases d with
      | nil =>
        simp [resolve_custom_field, resolveCustomFieldSpec, optLookup, mapTruthy,
          List.lookup]
      | cons p rest =>
        simp [resolve_custom_field, resolveCustomFieldSpec, optLookup, mapTruthy]

/-! ## Effective-status helper lemmas -/

lemma buildRow_status_eq (base_url : String) (smap pmap tmap : LabelMap)
    (dm : DropdownMaps) (t : Test) :
    (buildRow base_url smap pmap tmap dm t).status =
      effective_status ((buildRow base_url smap pmap tmap dm t).device)
        (isNaVariant ((buildRow base_url smap pmap tmap dm t).testim_desktop))
        (isNaVariant ((buildRow base_url smap pmap tmap dm t).testim_mobile))
        (resolve_status ((buildRow base_url smap pmap tmap dm t).status_raw)) := rfl

lemma effective_status_both_eq (dna mna : Bool) (s : String) :
    effective_status "Both" dna mna s = if dna && mna then "Not Applicable" else s := by
  cases dna <;> cases mna <;> rfl

lemma effective_status_desktop_eq (dna mna : Bool) (s : String) :
    effective_status "Desktop" dna mna s = if dna then "Not Applicable" else s := by
  cases dna <;> cases mna <;> rfl

lemma effective_status_mobile_eq (dna mna : Bool) (s : String) :
    effective_status "Mobile" dna mna s = if mna then "Not Applicable" else s := by
  cases dna <;> cases mna <;> rfl

lemma effective_status_na_or_id (d : String) (dna mna : Bool) (s : String) :
    effective_status d dna mna s = "Not Applicable" ∨ effective_status d dna mna s = s := by
  unfold effective_status
  repeat' split
  all_goals simp

/-! ## Claim C1 -/

/-- The C1 counterexample row: device defaults to Both, the raw status resolves
to the group Not Applicable, and neither sub-status is set. -/
def c1CexRow : Row :=
  buildRow "" [((1 : Int), "Not Applicable")] [] [] noDropdowns
    { baseTest with status_id := some 1 }

/-- Claim C1 counterexample: a test with device Both whose raw status group is
Not Applicable has effective status Not Applicable although neither sub-status
matches a not-applicable variant, refuting the only-if direction of the iff. -/
theorem C1_both_counterexample :
    c1CexRow.device = "Both" ∧ c1CexRow.status = "Not Applicable" ∧
    isNaVariant c1CexRow.testim_desktop = false ∧
    isNaVariant c1CexRow.testim_mobile = false := by decide

/-- Claim C1 (amended): for device Both the effective status is Not Applicable
if both sub-statuses match a not-applicable variant, and in every other case
equals the resolved raw status group; the stated iff holds whenever the
resolved raw status group is not itself Not Applicable. -/
theorem C1_both_effective_status (base_url : String) (smap pmap tmap : LabelMap)
    (dm : DropdownMaps) (t : Test)
    (hdev : (buildRow base_url smap pmap tmap dm t).device = "Both")
    (hraw : resolve_status ((buildRow base_url smap pmap tmap dm t).status_raw) ≠
      "Not Applicable") :
    ((buildRow base_url smap pmap tmap dm t).status = "Not Applicable" ↔
      (isNaVariant ((buildRow base_url smap pmap tmap dm t).testim_desktop) = true ∧
       isNaVariant ((buildRow base_url smap pmap tmap dm t).testim_mobile) = true)) ∧
    (¬(isNaVariant ((buildRow base_url smap pmap tmap dm t).testim_desktop) = true ∧
       isNaVariant ((buildRow base_url smap pmap tmap dm t).testim_mobile) = true) →
      (buildRow base_url smap pmap tmap dm t).status =
        resolve_status ((buildRow base_url smap pmap tmap dm t).status_raw)) := by
  have hs := buildRow_status_eq base_url smap pmap tmap dm t
  rw [hdev, effective_status_both_eq] at hs
  cases hd : isNaVariant ((buildRow base_url smap pmap tmap dm t).testim_desktop) <;>
    cases hm : isNaVariant ((buildRow base_url smap pmap tmap dm t).testim_mobile) <;>
    rw [hd, hm] at hs <;> simp_all

/-- Claim C1 witness: both sub-statuses are not-applicable variants, the raw
group is Unknown, and the effective status is Not Applicable. -/
theorem C1_both_effective_status_witness :
    (buildRow "" [] [] [] noDropdowns
      { baseTest with testim_desktop := RawValue.vstr "N/A",
                      testim_mobile := RawValue.vstr "n/a" }).status = "Not Applicable" :=
  (C1_both_effective_status "" [] [] [] noDropdowns
    { baseTest with testim_desktop := RawValue.vstr "N/A",
                    testim_mobile := RawValue.vstr "n/a" }
    (by decide) (by decide)).1.mpr ⟨by decide, by decide⟩

/-! ## Claim C2 -/

/-- The C2 counterexample row: device Desktop, raw status group Not Applicable,
desktop sub-status not a not-applicable variant. -/
def c2CexRow : Row :=
  buildRow "" [((1 : Int), "Not Applicable")] [] [] noDropdowns
    { baseTest with status_id := some 1, device := RawValue.vstr "Desktop" }

/-- Claim C2 counterexample: a test with device Desktop whose raw status group
is Not Applicable has effective status Not Applicable although its desktop
sub-status does not match a not-applicable variant, refuting the iff. -/
theorem C2_single_device_counterexample :
    c2CexRow.device = "Desktop" ∧ c2CexRow.status = "Not Applicable" ∧
    isNaVariant c2CexRow.testim_desktop = false := by decide

/-- Claim C2 (amended): for device Desktop (resp. Mobile) the effective status
is Not Applicable if the desktop (resp. mobile) sub-status alone matches a
not-applicable variant, the other sub-status being irrelevant, and otherwise
equals the resolved raw status group; the stated iff holds whenever the
resolved raw status group is not itself Not Applicable. -/
theorem C2_single_device_effective_status (base_url : String) (smap pmap tmap : LabelMap)
    (dm : DropdownMaps) (t : Test)
    (hraw : resolve_status ((buildRow base_url smap pmap tmap dm t).status_raw) ≠
      "Not Applicable") :
    ((buildRow base_url smap pmap tmap dm t).device = "Desktop" →
      (((buildRow base_url smap pmap tmap dm t).status = "Not Applicable") ↔
        isNaVariant ((buildRow base_url smap pmap tmap dm t).testim_desktop) = true) ∧
      (isNaVariant ((buildRow base_url smap pmap tmap dm t).testim_desktop) = false →
        (buildRow base_url smap pmap tmap dm t).status =
          resolve_status ((buildRow base_url smap pmap tmap dm t).status_raw))) ∧
    ((buildRow base_url smap pmap tmap dm t).device = "Mobile" →
      (((buildRow base_url smap pmap tmap dm t).status = "Not Applicable") ↔
        isNaVariant ((buildRow base_url smap pmap tmap dm t).testim_mobile) = true) ∧
      (isNaVariant ((buildRow base_url smap pmap tmap dm t).testim_mobile) = false →
        (buildRow base_url smap pmap tmap dm t).status =
          resolve_status ((buildRow base_url smap pmap tmap dm t).status_raw))) := by
  constructor
  · intro hdev
    have hs := buildRow_status_eq base_url smap pmap tmap dm t
    rw [hdev, effective_status_desktop_eq] at hs
    cases hd : isNaVariant ((buildRow base_url smap pmap tmap dm t).testim_desktop) <;>
      rw [hd] at hs <;> simp_all
  · intro hdev
    have hs := buildRow_status_eq base_url smap pmap tmap dm t
    rw [hdev, effective_status_mobile_eq] at hs
    cases hm : isNaVariant ((buildRow base_url smap pmap tmap dm t).testim_mobile) <;>
      rw [hm] at hs <;> simp_all

/-- Claim C2 witness: device Desktop with a not-applicable desktop sub-status
gives effective status Not Applicable. -/
theorem C2_single_device_effective_status_witness :
    (buildRow "" [] [] [] noDropdowns
      { baseTest with device := RawValue.vstr "Desktop",
                      testim_desktop := RawValue.vstr "Not Applicable" }).status =
      "Not Applicable" :=
  ((C2_single_device_effective_status "" [] [] [] noDropdowns
      { baseTest with device := RawValue.vstr "Desktop",
                      testim_desktop := RawValue.vstr "Not Applicable" }
      (by decide)).1 (by decide)).1.mpr (by decide)

/-! ## Claim C4 -/

/-- The C4 counterexample row: an empty status map makes every status id fall
back to the label Unknown. -/
def c4CexRow : Row := buildRow "" [] [] [] noDropdowns baseTest

/-- Claim C4 counterexample: with an empty status map the fallback label
Unknown passes through resolve_status and becomes the effective status, which
lies outside the fixed enumeration BASE_STATUS_ORDER. -/
theorem C4_closed_enum_counterexample :
    c4CexRow.status = "Unknown" ∧ "Unknown" ∉ BASE_STATUS_ORDER :=
  ⟨by decide, by decide⟩

/-- Claim C4 (amended): the effective status is always either Not Applicable or
the resolved raw status group, so it lies in the fixed enumeration
BASE_STATUS_ORDER whenever the resolved raw status group does; labels outside
the enumeration, including the Unknown fallback, pass through unchanged. -/
theorem C4_effective_status_enum (base_url : String) (smap pmap tmap : LabelMap)
    (dm : DropdownMaps) (t : Test)
    (h : resolve_status ((buildRow base_url smap pmap tmap dm t).status_raw) ∈
      BASE_STATUS_ORDER) :
    ((buildRow base_url smap pmap tmap dm t).status = "Not Applicable" ∨
      (buildRow base_url smap pmap tmap dm t).status =
        resolve_status ((buildRow base_url smap pmap tmap dm t).status_raw)) ∧
    (buildRow base_url smap pmap tmap dm t).status ∈ BASE_STATUS_ORDER := by
  have hs := buildRow_status_eq base_url smap pmap tmap dm t
  have key : (buildRow base_url smap pmap tmap dm t).status = "Not Applicable" ∨
      (buildRow base_url smap pmap tmap dm t).status =
        resolve_status ((buildRow base_url smap pmap tmap dm t).status_raw) := by
    rw [hs]
    exact effective_status_na_or_id _ _ _ _
  refine ⟨key, ?_⟩
  rcases key with k | k <;> rw [k]
  · decide
  · exact h

/-- Claim C4 witness: a mapped Passed status stays inside the enumeration. -/
theorem C4_effective_status_enum_witness :
    (buildRow "" [((1 : Int), "Passed")] [] [] noDropdowns
      { baseTest with status_id := some 1 }).status ∈ BASE_STATUS_ORDER :=
  (C4_effective_status_enum "" [((1 : Int), "Passed")] [] [] noDropdowns
    { baseTest with status_id := some 1 } (by decide)).2

/-! ## Claim C6 -/

/-- Claim C6: the options string "10,High\n20,Low" parses to the map sending
10 to High and 20 to Low, and in general lines without a comma are skipped
silently: parsing is unchanged when they are removed, and they never turn the
result into a failure. -/
theorem C6_parse_options :
    (parse_option_items "10,High\n20,Low" =
        some [((10 : Int), "High"), ((20 : Int), "Low")] ∧
      parse_option_items "10,High\ngarbage\n20,Low" =
        some [((10 : Int), "High"), ((20 : Int), "Low")]) ∧
    (∀ (lines : List String) (acc : LabelMap),
      parseOptionLines lines acc =
        parseOptionLines (lines.filter (fun l => containsChar ',' (pyStrip l))) acc) := by
  refine ⟨by decide, ?_⟩
  intro lines
  induction lines with
  | nil => intro acc; rfl
  | cons l rest ih =>
    intro acc
    cases h : containsChar ',' (pyStrip l) with
    | false =>
      simp only [parseOptionLines, List.filter_cons, h, Bool.false_eq_true, if_false]
      exact ih acc
    | true =>
      simp only [parseOptionLines, List.filter_cons, h, if_true]
      cases hv : pyInt? (pyStrip ((pySplitChar ',' (pyStrip l)).headD "")) with
      | none => simp [hv]
      | some k => simp only [hv]; exact ih _

/-! ## Claim C7 -/

/-- A row whose countries field is the free text LT, LV. -/
def c7RowBoth : Row :=
  buildRow "" [] [] [] noDropdowns { baseTest with countries := RawValue.vstr "LT, LV" }

/-- A row whose countries field is the free text LT. -/
def c7RowLt : Row :=
  buildRow "" [] [] [] noDropdowns { baseTest with countries := RawValue.vstr "LT" }

/-- Claim C7: country parsing splits on commas and newlines into trimmed
non-empty tokens; the input LT, LV sets the LT, LV and conjunction flags, the
input LT alone sets only the LT flag, and in general the flags are exactly
list membership of the tokens with the conjunction flag their conjunction. -/
theorem C7_country_flags :
    (∀ (base_url : String) (smap pmap tmap : LabelMap) (dm : DropdownMaps) (t : Test),
      (buildRow base_url smap pmap tmap dm t).lt =
        (parseCountries (resolve_custom_field t.countries dm.countries)).contains "LT" ∧
      (buildRow base_url smap pmap tmap dm t).lv =
        (parseCountries (resolve_custom_field t.countries dm.countries)).contains "LV" ∧
      (buildRow base_url smap pmap tmap dm t).both_countries =
        ((buildRow base_url smap pmap tmap dm t).lt &&
          (buildRow base_url smap pmap tmap dm t).lv)) ∧
    (parseCountries "LT, LV" = ["LT", "LV"] ∧
     parseCountries "LT" = ["LT"] ∧
     parseCountries "LT\nLV" = ["LT", "LV"] ∧
     (c7RowBoth.lt = true ∧ c7RowBoth.lv = true ∧ c7RowBoth.both_countries = true) ∧
     (c7RowLt.lt = true ∧ c7RowLt.lv = false ∧ c7RowLt.both_countries = false)) := by
  constructor
  · intro base_url smap pmap tmap dm t
    exact ⟨rfl, rfl, rfl⟩
  · decide

/-! ## Claim C8 -/

/-- Claim C8: on a server answering offset 0 with a 250-test envelope carrying
a next link and offset 250 with a 10-test envelope without one, get_tests
returns the 260 tests in order and requests exactly the offsets 0 and 250;
and a bare-list response is treated as the final page at once. -/
theorem C8_pagination {α : Type} (fetch : Nat → ApiResponse α) (ts1 ts2 : List α)
    (link : String)
    (h0 : fetch 0 = ApiResponse.envelope ts1 (some link))
    (h1 : fetch 250 = ApiResponse.envelope ts2 none)
    (hl1 : ts1.length = 250) (hl2 : ts2.length = 10) :
    (∀ fuel : Nat, get_tests fetch (fuel + 2) = (ts1 ++ ts2, [0, 250])) ∧
    (ts1 ++ ts2).length = 260 ∧
    (∀ (g : Nat → ApiResponse α) (ts : List α), g 0 = ApiResponse.bare ts →
      ∀ fuel : Nat, get_tests g (fuel + 1) = (ts, [0])) := by
  refine ⟨?_, ?_, ?_⟩
  · intro fuel
    unfold get_tests
    rw [show fuel + 2 = Nat.succ (Nat.succ fuel) from rfl]
    simp [getTestsAux, h0, h1]
  · simp [hl1, hl2]
  · intro g ts hg fuel
    unfold get_tests
    rw [show fuel + 1 = Nat.succ fuel from rfl]
    simp [getTestsAux, hg]

/-- A concrete two-page server for the C8 scenario. -/
def c8Fetch : Nat → ApiResponse Nat :=
  fun offset =>
    if offset == 0 then ApiResponse.envelope (List.replicate 250 0) (some "next")
    else ApiResponse.envelope (List.replicate 10 0) none

/-- Claim C8 witness: the two-page scenario evaluated on a concrete server. -/
theorem C8_pagination_witness :
    get_tests c8Fetch 2 = (List.replicate 250 0 ++ List.replicate 10 0, [0, 250]) ∧
    (List.replicate 250 0 ++ List.replicate 10 0).length = 260 := by
  have h := C8_pagination c8Fetch (List.replicate 250 0) (List.replicate 10 0) "next"
    rfl rfl (List.length_replicate 250 0) (List.length_replicate 10 0)
  exact ⟨h.1 0, h.2.1⟩

/-! ## Claim C9 -/

/-- Claim C9: over the Status column of any row table, done is the summed
count of the statuses Passed, Passed with Issue and Passed with Stub,
actionable is the row count minus the count of Not Applicable, and the
progress value is done divided by actionable times 100, with 0 when
actionable is 0. -/
theorem C9_progress (rows : List Row) :
    doneCount (statuses_of rows) =
      (statuses_of rows).count "Passed" + (statuses_of rows).count "Passed with Issue" +
        (statuses_of rows).count "Passed with Stub" ∧
    actionableCount (statuses_of rows) =
      rows.length - (statuses_of rows).count "Not Applicable" ∧
    (actionableCount (statuses_of rows) ≠ 0 →
      render_progress_pct (doneCount (statuses_of rows)) (actionableCount (statuses_of rows)) =
        ((doneCount (statuses_of rows) : ℚ) / (actionableCount (statuses_of rows) : ℚ)) * 100) ∧
    (actionableCount (statuses_of rows) = 0 →
      render_progress_pct (doneCount (statuses_of rows))
        (actionableCount (statuses_of rows)) = 0) := by
  refine ⟨?_, ?_, ?_, ?_⟩
  · simp only [doneCount, done_set, List.map_cons, List.map_nil, List.sum_cons,
      List.sum_nil]
    omega
  · simp [actionableCount, naCount, statuses_of]
  · intro h
    have hb : (actionableCount (statuses_of rows) == 0) = false := beq_eq_false_iff_ne.mpr h
    simp [render_progress_pct, hb]
  · intro h
    simp [render_progress_pct, h]

/-- Claim C9 witness: the empty table has actionable 0 and progress value 0. -/
theorem C9_progress_witness :
    actionableCount (statuses_of []) = 0 ∧
    render_progress_pct (doneCount (statuses_of [])) (actionableCount (statuses_of [])) = 0 :=
  ⟨rfl, (C9_progress []).2.2.2 rfl⟩

end Railway
